import Mathlib

/-!
Shallow embedding of the Neuralynx header-parsing subsystem
(`neo/rawio/neuralynxrawio/nlxheader.py`): the property-table parser,
the application-name/version normalization, the dialect resolver and
timestamp parser, and the acquisition-type classifier, together with
proofs of the specified properties.

Python strings are modelled as Lean `String`/`List Char`; Python numbers
as `Int`/`Rat` (the float values appearing in headers are decimal
literals, modelled exactly as rationals); fallible code returns
`Except String _` where a raised Python exception is an `.error`.
-/

set_option maxRecDepth 20000

namespace NlxHeader

/-- Python `\s` on ASCII text: the whitespace class used by `re`. -/
def wsChar (c : Char) : Bool :=
  c == ' ' || c == '\t' || c == '\n' || c == '\r' || c == Char.ofNat 11 || c == Char.ofNat 12

/-- The character class `[\S ]` of the value capture in the key patterns:
    any non-whitespace character or a space. -/
def valChar (c : Char) : Bool :=
  !(wsChar c) || c == ' '

/-- Python `\w` restricted to ASCII. -/
def wordChar (c : Char) : Bool :=
  c.isAlphanum || c == '_'

/-- Python `\d` restricted to ASCII. -/
def digitChar (c : Char) : Bool :=
  c.isDigit

/-- Maximal prefix of characters satisfying `f`, together with the rest. -/
def takeRun (f : Char → Bool) : List Char → List Char × List Char
  | [] => ([], [])
  | c :: cs =>
    if f c then ((c :: (takeRun f cs).1), (takeRun f cs).2)
    else ([], c :: cs)

/-- Match a literal character sequence at the front, returning the rest. -/
def dropLit : List Char → List Char → Option (List Char)
  | [], cs => some cs
  | _ :: _, [] => none
  | l :: ls, c :: cs => if l == c then dropLit ls cs else none

/-- Strip leading and trailing Python whitespace. -/
def stripWS (cs : List Char) : List Char :=
  ((cs.dropWhile wsChar).reverse.dropWhile wsChar).reverse

/-- Python `str.rstrip(" ")`: strip trailing spaces only. -/
def rstripSpaces (s : String) : String :=
  String.mk ((s.data.reverse.dropWhile (· == ' ')).reverse)

/-- Python `re.findall(r"\S+", s)` / `str.split()`: maximal runs of
    non-whitespace characters (fuelled scan; the fuel `|cs|` always suffices). -/
def splitWSGo : Nat → List Char → List String
  | 0, _ => []
  | _ + 1, [] => []
  | fuel + 1, c :: cs =>
    if wsChar c then splitWSGo fuel cs
    else String.mk (c :: (takeRun (fun d => !wsChar d) cs).1) ::
         splitWSGo fuel (takeRun (fun d => !wsChar d) cs).2

def splitWS (s : String) : List String :=
  splitWSGo s.data.length s.data

/-- Python `re.findall(r"\w+", s)`: maximal runs of word characters. -/
def wordTokensGo : Nat → List Char → List String
  | 0, _ => []
  | _ + 1, [] => []
  | fuel + 1, c :: cs =>
    if wordChar c then String.mk (c :: (takeRun wordChar cs).1) ::
         wordTokensGo fuel (takeRun wordChar cs).2
    else wordTokensGo fuel cs

def wordTokens (s : String) : List String :=
  wordTokensGo s.data.length s.data

/-- Digits to the natural number they denote. -/
def digitsToNat (ds : List Char) : Nat :=
  ds.foldl (fun n c => n * 10 + (c.toNat - 48)) 0

/-- Python `int(s)`: optional surrounding whitespace, optional sign,
    a nonempty digit run and nothing else. -/
def pyInt (s : String) : Option Int :=
  match stripWS s.data with
  | '-' :: cs =>
    match takeRun digitChar cs with
    | ([], _) => none
    | (ds, rest) => if rest.isEmpty then some (-(digitsToNat ds : Int)) else none
  | '+' :: cs =>
    match takeRun digitChar cs with
    | ([], _) => none
    | (ds, rest) => if rest.isEmpty then some (digitsToNat ds : Int) else none
  | cs =>
    match takeRun digitChar cs with
    | ([], _) => none
    | (ds, rest) => if rest.isEmpty then some (digitsToNat ds : Int) else none

/-- The unsigned decimal part of Python `float(s)`:
    `digits [. digits] [(e|E) [sign] digits]`, at least one digit. -/
def pyFloatBody (cs : List Char) : Option Rat :=
  match takeRun digitChar cs with
  | (ip, rest1) =>
    match (match rest1 with
           | '.' :: r => (takeRun digitChar r, true)
           | r => ((([] : List Char), r), false)) with
    | ((fp, rest2), _) =>
      if ip.isEmpty && fp.isEmpty then none
      else
        let mant : Rat := (digitsToNat (ip ++ fp) : Rat) / ((10 : Rat) ^ fp.length)
        match rest2 with
        | [] => some mant
        | e :: r =>
          if e == 'e' || e == 'E' then
            match (match r with
                   | '-' :: r2 => (true, r2)
                   | '+' :: r2 => (false, r2)
                   | r2 => (false, r2)) with
            | (esign, r3) =>
              match takeRun digitChar r3 with
              | ([], _) => none
              | (eds, rest3) =>
                if rest3.isEmpty then
                  some (if esign then mant / ((10 : Rat) ^ digitsToNat eds)
                        else mant * ((10 : Rat) ^ digitsToNat eds))
                else none
          else none

/-- Python `float(s)` on decimal literals, modelled exactly as a rational. -/
def pyFloat (s : String) : Option Rat :=
  match stripWS s.data with
  | '-' :: cs => (pyFloatBody cs).map (fun q => -q)
  | '+' :: cs => pyFloatBody cs
  | cs => pyFloatBody cs

/-- Python ASCII `str.upper()`. -/
def pyUpper (s : String) : String :=
  String.mk (s.data.map Char.toUpper)

/-- `optMapM f` maps `f` over a list, failing if any element fails
    (models a Python list comprehension over a fallible conversion). -/
def optMapM (f : α → Option β) : List α → Option (List β)
  | [] => some []
  | a :: as =>
    match f a, optMapM f as with
    | some b, some bs => some (b :: bs)
    | _, _ => none

/-- Python `str.replace(pat, rep)` with nonempty `pat`:
    left-to-right, non-overlapping (fuelled scan). -/
def replaceSubGo (pat rep : List Char) : Nat → List Char → List Char
  | 0, cs => cs
  | _ + 1, [] => []
  | fuel + 1, c :: cs =>
    match dropLit pat (c :: cs) with
    | some rest => rep ++ replaceSubGo pat rep fuel rest
    | none => c :: replaceSubGo pat rep fuel cs

def replaceSub (pat rep s : String) : String :=
  String.mk (replaceSubGo pat.data rep.data s.data.length s.data)

/-- Split a character list at its last `'"'`, returning the parts before
    and after it (used to model the greedy backtracking of `([\S ]*)"`). -/
def lastQuoteSplit : List Char → Option (List Char × List Char)
  | [] => none
  | c :: rest =>
    match lastQuoteSplit rest with
    | some (b, a) => some (c :: b, a)
    | none => if c == '"' then some ([], rest) else none

/-- Match the pattern `(\S*) "([\S ]*)"` at the front of `cs`: a maximal
    non-whitespace run, a space and a quote, then a `[\S ]` run whose last
    quote closes the version text. -/
def appNVMatchAt (cs : List Char) : Option ((String × String) × List Char) :=
  match takeRun (fun c => !wsChar c) cs with
  | (a, r1) =>
    match r1 with
    | ' ' :: '"' :: r2 =>
      match takeRun valChar r2 with
      | (w, r3) =>
        match lastQuoteSplit w with
        | some (v, tail) => some ((String.mk a, String.mk v), tail ++ r3)
        | none => none
    | _ => none

/-- `re.findall(r'(\S*) "([\S ]*)"', s)` (fuelled scan; every match
    consumes at least two characters). -/
def appNVGo : Nat → List Char → List (String × String)
  | 0, _ => []
  | _ + 1, [] => []
  | fuel + 1, c :: cs =>
    match appNVMatchAt (c :: cs) with
    | some (nv, rest) => nv :: appNVGo fuel rest
    | none => appNVGo fuel cs

def parseAppNameVersion (s : String) : List (String × String) :=
  appNVGo s.data.length s.data

/-- A `packaging.version.Version` value as produced from Neuralynx header
    version strings: an epoch-0 release tuple with an optional `.devN`
    suffix (no other release segments occur in these headers). -/
structure PyVersion where
  release : List Nat
  dev : Option Nat
deriving DecidableEq, Repr

/-- Split a character list on `'.'`, keeping empty segments. -/
def splitDots : List Char → List (List Char)
  | [] => [[]]
  | '.' :: cs => [] :: splitDots cs
  | c :: cs =>
    match splitDots cs with
    | s :: ss => (c :: s) :: ss
    | [] => [[c]]

/-- One version segment: a nonempty digit run. -/
def segNat (seg : List Char) : Option Nat :=
  match seg with
  | [] => none
  | _ => if seg.all digitChar then some (digitsToNat seg) else none

/-- A trailing `devN` segment (`N` may be empty, defaulting to 0). -/
def segDev (seg : List Char) : Option Nat :=
  match dropLit "dev".data seg with
  | none => none
  | some ds => if ds.all digitChar then some (digitsToNat ds) else none

def parseVersionSegs : List (List Char) → List Nat → Option PyVersion
  | [], acc => if acc.isEmpty then none else some ⟨acc.reverse, none⟩
  | [seg], acc =>
    match segNat seg with
    | some n => some ⟨(n :: acc).reverse, none⟩
    | none =>
      match segDev seg with
      | some d => if acc.isEmpty then none else some ⟨acc.reverse, some d⟩
      | none => none
  | seg :: rest, acc =>
    match segNat seg with
    | some n => parseVersionSegs rest (n :: acc)
    | none => none

/-- `packaging.version.Version(s)` restricted to the dotted-numeric
    (optionally `.devN`-suffixed) strings arising from Neuralynx headers;
    anything else is an `InvalidVersion` error, modelled as `none`. -/
def parseVersion (s : String) : Option PyVersion :=
  parseVersionSegs (splitDots (stripWS s.data)) []

/-- `packaging` comparison key of the release tuple: trailing zeros stripped. -/
def stripZeros (l : List Nat) : List Nat :=
  (l.reverse.dropWhile (· == 0)).reverse

/-- Lexicographic comparison of (stripped) release tuples. -/
def lexCmp : List Nat → List Nat → Ordering
  | [], [] => .eq
  | [], _ :: _ => .lt
  | _ :: _, [] => .gt
  | a :: as, b :: bs =>
    match compare a b with
    | .eq => lexCmp as bs
    | o => o

/-- `packaging` ordering of the dev component: a dev release sorts before
    the corresponding release. -/
def devCmp : Option Nat → Option Nat → Ordering
  | none, none => .eq
  | none, some _ => .gt
  | some _, none => .lt
  | some a, some b => compare a b

/-- `packaging.version.Version` comparison restricted to our value space. -/
def vcmp (a b : PyVersion) : Ordering :=
  match lexCmp (stripZeros a.release) (stripZeros b.release) with
  | .eq => devCmp a.dev b.dev
  | o => o

def vle (a b : PyVersion) : Bool := vcmp a b != .gt

def vlt (a b : PyVersion) : Bool := vcmp a b == .lt

def veqb (a b : PyVersion) : Bool := vcmp a b == .eq

/-- A `datetime.datetime` value (naive, microsecond precision). -/
structure DateTime where
  year : Nat
  month : Nat
  day : Nat
  hour : Nat
  minute : Nat
  second : Nat
  microsecond : Nat
deriving DecidableEq, Repr

/-- A channel id entry: an integer, or the `"unknown"` placeholder string
    the parser inserts when no `ADChannel` property is present. -/
inductive ChanId where
  | int (n : Int)
  | str (s : String)
deriving DecidableEq, Repr

/-- A value stored in the header property table. -/
inductive PropVal where
  | str (s : String)
  | num (q : Rat)
  | int (n : Int)
  | bool (b : Bool)
  | intList (l : List Int)
  | strList (l : List String)
  | ratList (l : List Rat)
  | idList (l : List ChanId)
  | version (v : PyVersion)
  | time (t : Option DateTime)
deriving DecidableEq

/-- The `NlxHeader` ordered dictionary: an insertion-ordered association
    list from canonical property names to values. -/
def Props := List (String × PropVal)

/-- Dictionary update: overwrite in place if the key exists, else append. -/
def setProp : Props → String → PropVal → Props
  | [], k, v => [(k, v)]
  | (k', v') :: rest, k, v =>
    if k' = k then (k, v) :: rest else (k', v') :: setProp rest k v

/-- Dictionary lookup. -/
def lookupProp : Props → String → Option PropVal
  | [], _ => none
  | (k', v) :: rest, k => if k' = k then some v else lookupProp rest k

/-- The key part of a rule in `txt_header_keys`: all entries are literal
    strings except the `Feature \w+ \d+` pattern. -/
inductive KeyPat where
  | lit (s : String)
  | feature

/-- The value converter of a rule: `None`, `float`, `int` or `_to_bool`. -/
inductive ConvTy where
  | idConv
  | floatConv
  | intConv
  | boolConv

/-- Apply a converter to a captured value; a Python exception from the
    converter is an `.error` (`_to_bool` rejects anything but the literal
    strings `"True"` / `"False"`). -/
def applyConv : ConvTy → String → Except String PropVal
  | .idConv, s => .ok (.str s)
  | .floatConv, s =>
    match pyFloat s with
    | some q => .ok (.num q)
    | none => .error "could not convert string to float"
  | .intConv, s =>
    match pyInt s with
    | some n => .ok (.int n)
    | none => .error "invalid literal for int"
  | .boolConv, s =>
    if s = "True" then .ok (.bool true)
    else if s = "False" then .ok (.bool false)
    else .error "Can not convert to bool"

/-- `NlxHeader.txt_header_keys`: ordered `(pattern, canonical name, converter)`
    rules; an empty canonical name means the matched key text is used. -/
def txt_header_keys : List (KeyPat × String × ConvTy) := [
  (.lit "AcqEntName", "channel_names", .idConv),
  (.lit "FileType", "", .idConv),
  (.lit "FileVersion", "", .idConv),
  (.lit "RecordSize", "", .idConv),
  (.lit "HardwareSubSystemName", "", .idConv),
  (.lit "HardwareSubSystemType", "", .idConv),
  (.lit "SamplingFrequency", "sampling_rate", .floatConv),
  (.lit "ADMaxValue", "", .idConv),
  (.lit "ADBitVolts", "bit_to_microVolt", .idConv),
  (.lit "NumADChannels", "", .idConv),
  (.lit "ADChannel", "channel_ids", .idConv),
  (.lit "InputRange", "", .idConv),
  (.lit "InputInverted", "input_inverted", .boolConv),
  (.lit "DSPLowCutFilterEnabled", "", .idConv),
  (.lit "DspLowCutFrequency", "", .idConv),
  (.lit "DspLowCutNumTaps", "", .idConv),
  (.lit "DspLowCutFilterType", "", .idConv),
  (.lit "DSPHighCutFilterEnabled", "", .idConv),
  (.lit "DspHighCutFrequency", "", .idConv),
  (.lit "DspHighCutNumTaps", "", .idConv),
  (.lit "DspHighCutFilterType", "", .idConv),
  (.lit "DspDelayCompensation", "", .idConv),
  (.lit "DspFilterDelay_µs", "", .idConv),
  (.lit "DisabledSubChannels", "", .idConv),
  (.lit "WaveformLength", "", .intConv),
  (.lit "AlignmentPt", "", .idConv),
  (.lit "ThreshVal", "", .idConv),
  (.lit "MinRetriggerSamples", "", .idConv),
  (.lit "SpikeRetriggerTime", "", .idConv),
  (.lit "DualThresholding", "", .idConv),
  (.feature, "", .idConv),
  (.lit "SessionUUID", "", .idConv),
  (.lit "FileUUID", "", .idConv),
  (.lit "CheetahRev", "", .idConv),
  (.lit "ProbeName", "", .idConv),
  (.lit "OriginalFileName", "", .idConv),
  (.lit "TimeCreated", "", .idConv),
  (.lit "TimeClosed", "", .idConv),
  (.lit "ApplicationName", "", .idConv),
  (.lit "AcquisitionSystem", "", .idConv),
  (.lit "ReferenceChannel", "", .idConv),
  (.lit "NLX_Base_Class_Type", "", .idConv)]

/-- Match the key part of a rule at the front of `cs`, returning the
    matched key text and the rest. -/
def keyMatch : KeyPat → List Char → Option (List Char × List Char)
  | .lit s, cs => (dropLit s.data cs).map (fun r => (s.data, r))
  | .feature, cs =>
    match dropLit "Feature ".data cs with
    | none => none
    | some r1 =>
      match takeRun wordChar r1 with
      | ([], _) => none
      | (w, r2) =>
        match r2 with
        | ' ' :: r3 =>
          match takeRun digitChar r3 with
          | ([], _) => none
          | (d, r4) => some ("Feature ".data ++ w ++ ' ' :: d, r4)
        | _ => none

/-- Match `KEY\s+[\S ]*` at the front of `cs` (the leading `-` has already
    been consumed), returning key text, captured value and the rest. -/
def propMatch (kp : KeyPat) (cs : List Char) : Option (String × String × List Char) :=
  match keyMatch kp cs with
  | none => none
  | some (name, r1) =>
    match takeRun wsChar r1 with
    | ([], _) => none
    | (_ :: _, r2) =>
      match takeRun valChar r2 with
      | (v, r3) => some (String.mk name, String.mk v, r3)

/-- `re.findall(r"-(KEY)\s+([\S ]*)", txt)`: scan left to right for
    non-overlapping matches (fuelled scan; matches consume at least one
    character, so fuel `|cs|` suffices). -/
def findPairsGo (kp : KeyPat) : Nat → List Char → List (String × String)
  | 0, _ => []
  | _ + 1, [] => []
  | fuel + 1, c :: cs =>
    if c = '-' then
      match propMatch kp cs with
      | some (n, v, rest) => (n, v) :: findPairsGo kp fuel rest
      | none => findPairsGo kp fuel cs
    else findPairsGo kp fuel cs

def findPairs (kp : KeyPat) (cs : List Char) : List (String × String) :=
  findPairsGo kp cs.length cs

/-- `NlxHeader.read_properties`: run every rule of `txt_header_keys` over
    the header text, right-strip spaces from each captured value, convert
    it, and store it under the canonical (or matched) name; later matches
    overwrite earlier ones. -/
def read_properties (txt : String) : Except String Props :=
  txt_header_keys.foldlM
    (fun p rule =>
      (findPairs rule.1 txt.data).foldlM
        (fun p' nv =>
          (applyConv rule.2.2 (rstripSpaces nv.2)).map
            (fun v => setProp p' (if rule.2.1 = "" then nv.1 else rule.2.1) v))
        p)
    []

/-- The channel-names half of `NlxHeader.convert_channel_ids_names`
    (source lines 193-202): a single name token is replicated to the
    channel-id count, otherwise an exact length match is required; missing
    names default to `"unknown"` per channel. -/
def convertNames (p1 : Props) (numChidEntries : Nat) : Except String (Props × Nat) :=
  match lookupProp p1 "channel_ids" with
  | some (.idList l) =>
    match lookupProp p1 "channel_names" with
    | some (.str s) =>
      if ((match splitWS s with
           | [t] => List.replicate l.length t
           | ns => ns) : List String).length = l.length then
        .ok (setProp p1 "channel_names"
              (.strList (match splitWS s with
                         | [t] => List.replicate l.length t
                         | ns => ns)), numChidEntries)
      else .error "Number of channel ids does not match channel names."
    | some _ => .error "TypeError"
    | none =>
      .ok (setProp p1 "channel_names" (.strList (List.replicate l.length "unknown")), numChidEntries)
  | _ => .error "KeyError channel_ids"

/-- `NlxHeader.convert_channel_ids_names`: convert the raw `channel_ids`
    text to integers (default: the single placeholder `"unknown"`), then
    normalize the channel names; returns the updated table and the number
    of raw channel-id entries.  (The source also computes a name from the
    filename here, but never uses it.) -/
def convert_channel_ids_names (p : Props) : Except String (Props × Nat) :=
  match lookupProp p "channel_ids" with
  | some (.str s) =>
    (match optMapM pyInt (splitWS s) with
     | some ids =>
       convertNames (setProp p "channel_ids" (.idList (ids.map ChanId.int))) (splitWS s).length
     | none => .error "invalid literal for int")
  | some _ => .error "TypeError"
  | none => convertNames (setProp p "channel_ids" (.idList [ChanId.str "unknown"])) 0

/-- The first stage of `NlxHeader.setApplicationAndVersion`: the four-way
    priority cascade that sets `ApplicationName` and picks the raw version
    text.  A header with both `CheetahRev` and `ApplicationName` fails the
    source's assertion. -/
def appNameVersionPair (p : Props) : Except String (Props × String) :=
  match lookupProp p "CheetahRev" with
  | some cv =>
    match lookupProp p "ApplicationName" with
    | some _ => .error "AssertionError: ApplicationName not in self"
    | none =>
      match cv with
      | .str rev => .ok (setProp p "ApplicationName" (.str "Cheetah"), rev)
      | _ => .error "TypeError"
  | none =>
    match lookupProp p "ApplicationName" with
    | some (.str a) =>
      match parseAppNameVersion a with
      | [(n, v)] => .ok (setProp p "ApplicationName" (.str n), v)
      | _ => .error "impossible to find application name and version"
    | some _ => .error "TypeError"
    | none =>
      match lookupProp p "NLX_Base_Class_Type" with
      | some _ => .ok (setProp p "ApplicationName" (.str "BML"), "2.0")
      | none => .ok (setProp p "ApplicationName" (.str "Neuraview"), "2")

/-- `NlxHeader.setApplicationAndVersion`: pick name and raw version text,
    rewrite a `" Development"` marker to `".dev0"`, and store the parsed
    structured version. -/
def setApplicationAndVersion (p : Props) : Except String Props :=
  match appNameVersionPair p with
  | .error e => .error e
  | .ok (p1, rawv) =>
    match parseVersion (replaceSub " Development" ".dev0" rawv) with
    | some v => .ok (setProp p1 "ApplicationVersion" (.version v))
    | none => .error "InvalidVersion"

/-- `NlxHeader.setBitToMicroVolt`: split the raw text on whitespace,
    replicate a single token across the channel count, convert each token
    with `float` and scale by `1e6`, and require the final length to equal
    the channel count. -/
def setBitToMicroVolt (p : Props) : Except String Props :=
  match lookupProp p "bit_to_microVolt" with
  | none => .ok p
  | some (.str s) =>
    match (match splitWS s with
           | [t] =>
             (match lookupProp p "channel_ids" with
              | some (.idList cids) => .ok (List.replicate cids.length t)
              | _ => .error "KeyError channel_ids")
           | ts => .ok ts
           : Except String (List String)) with
    | .error e => .error e
    | .ok btm =>
      match optMapM pyFloat btm with
      | none => .error "could not convert string to float"
      | some qs =>
        match lookupProp p "channel_ids" with
        | some (.idList cids) =>
          if (qs.map (fun q => q * 1000000)).length = cids.length then
            .ok (setProp p "bit_to_microVolt" (.ratList (qs.map (fun q => q * 1000000))))
          else .error "Number of channel ids does not match bit_to_microVolt conversion factors."
        | _ => .error "KeyError channel_ids"
  | some _ => .error "TypeError"

/-- `NlxHeader.setInputRanges`: split the raw text on word boundaries,
    replicate a single token by the raw channel-id entry count, convert to
    integers, and require the final length to equal that count. -/
def setInputRanges (numChidEntries : Nat) (p : Props) : Except String Props :=
  match lookupProp p "InputRange" with
  | none => .ok p
  | some (.str s) =>
    match (match wordTokens s with
           | [e] => (pyInt e).map (fun v => List.replicate numChidEntries v)
           | es => optMapM pyInt es) with
    | none => .error "invalid literal for int"
    | some l =>
      if l.length = numChidEntries then .ok (setProp p "InputRange" (.intList l))
      else .error "Number of channel ids does not match input range values."
  | some _ => .error "TypeError"

/-- A datetime regex of the dialect table.  Every such regex in the source
    has the shape `PRE (?P<date>\S+) MID (?P<time>\S+)` for literal `PRE`
    and `MID`, which is what this record stores. -/
structure DtPattern where
  pre : String
  mid : String
deriving DecidableEq, Repr

/-- One named dialect of `NlxHeader.header_pattern_dicts`. -/
structure HeaderPatternDict where
  datetime1_regex : DtPattern
  datetime2_regex : Option DtPattern
  filename_regex : Option String
  datetimeformat : String
  datetime2format : Option String
deriving DecidableEq, Repr

/-- The keys of `NlxHeader.header_pattern_dicts`. -/
inductive DialectKey where
  | bml
  | v540
  | bv564
  | neuraview2
  | inProps
  | inHeader
deriving DecidableEq, Repr

/-- `NlxHeader.header_pattern_dicts`: the fixed dialect table. -/
def header_pattern_dicts : DialectKey → HeaderPatternDict
  | .bml =>
    { datetime1_regex := ⟨"## Time Opened: (m/d/y): ", "  At Time: "⟩
      datetime2_regex := none
      filename_regex := some "## File Name: (?P<filename>\\S+)"
      datetimeformat := "%m/%d/%y %H:%M:%S.%f"
      datetime2format := none }
  | .v540 =>
    { datetime1_regex := ⟨"## Time Opened (m/d/y): ", "  At Time: "⟩
      datetime2_regex := some ⟨"## Time Closed (m/d/y): ", "  At Time: "⟩
      filename_regex := some "## File Name: (?P<filename>\\S+)"
      datetimeformat := "%m/%d/%Y %H:%M:%S.%f"
      datetime2format := none }
  | .bv564 =>
    { datetime1_regex := ⟨"## Time Opened (m/d/y): ", "  (h:m:s.ms) "⟩
      datetime2_regex := some ⟨"## Time Closed (m/d/y): ", "  (h:m:s.ms) "⟩
      filename_regex := some "## File Name (?P<filename>\\S+)"
      datetimeformat := "%m/%d/%Y %H:%M:%S.%f"
      datetime2format := none }
  | .neuraview2 =>
    { datetime1_regex := ⟨"## Date Opened: (mm/dd/yyy): ", " At Time: "⟩
      datetime2_regex := some ⟨"## Date Closed: (mm/dd/yyy): ", " At Time: "⟩
      filename_regex := some "## File Name: (?P<filename>\\S+)"
      datetimeformat := "%m/%d/%Y %H:%M:%S"
      datetime2format := none }
  | .inProps =>
    { datetime1_regex := ⟨"-TimeCreated ", " "⟩
      datetime2_regex := some ⟨"-TimeClosed ", " "⟩
      filename_regex := some "-OriginalFileName \"?(?P<filename>\\S+)\"?"
      datetimeformat := "%Y/%m/%d %H:%M:%S"
      datetime2format := some "%Y/%m/%d %H:%M:%S.%f" }
  | .inHeader =>
    { datetime1_regex := ⟨"## Time Opened: (m/d/y): ", "  At Time: "⟩
      datetime2_regex := none
      filename_regex := none
      datetimeformat := "%m/%d/%y %H:%M:%S.%f"
      datetime2format := none }

/-- Match `PRE (?P<date>\S+) MID (?P<time>\S+)` at the front of `cs`. -/
def dtMatchAt (pat : DtPattern) (cs : List Char) : Option (String × String) :=
  match dropLit pat.pre.data cs with
  | none => none
  | some r1 =>
    match takeRun (fun c => !wsChar c) r1 with
    | ([], _) => none
    | (d, r2) =>
      match dropLit pat.mid.data r2 with
      | none => none
      | some r3 =>
        match takeRun (fun c => !wsChar c) r3 with
        | ([], _) => none
        | (t, _) => some (String.mk d, String.mk t)

/-- `re.search` for a dialect datetime regex: the leftmost match. -/
def dtSearchGo (pat : DtPattern) : List Char → Option (String × String)
  | [] => none
  | c :: cs =>
    match dtMatchAt pat (c :: cs) with
    | some r => some r
    | none => dtSearchGo pat cs

def dtSearch (pat : DtPattern) (txt : String) : Option (String × String) :=
  dtSearchGo pat txt.data

/-- The field values collected while matching a `strptime` format. -/
structure TM where
  ty : Option Nat
  tY : Option Nat
  tm : Option Nat
  td : Option Nat
  tH : Option Nat
  tM : Option Nat
  tS : Option Nat
  tf : Option Nat
deriving Repr

def TM.empty : TM := ⟨none, none, none, none, none, none, none, none⟩

def digitVal (c : Char) : Nat := c.toNat - 48

/-- CPython `_strptime` directive regexes, as ordered alternations.
    Returns the parsed value and the remaining input. -/
def matchDirective (dc : Char) (s : List Char) : Option (Nat × List Char) :=
  match dc with
  | 'm' =>
    match s with
    | c1 :: c2 :: rest =>
      if c1 == '1' && ('0' ≤ c2 && c2 ≤ '2') then some (10 + digitVal c2, rest)
      else if c1 == '0' && ('1' ≤ c2 && c2 ≤ '9') then some (digitVal c2, rest)
      else if '1' ≤ c1 && c1 ≤ '9' then some (digitVal c1, c2 :: rest)
      else none
    | [c1] => if '1' ≤ c1 && c1 ≤ '9' then some (digitVal c1, []) else none
    | [] => none
  | 'd' =>
    match s with
    | c1 :: c2 :: rest =>
      if c1 == '3' && ('0' ≤ c2 && c2 ≤ '1') then some (30 + digitVal c2, rest)
      else if ('1' ≤ c1 && c1 ≤ '2') && c2.isDigit then some (10 * digitVal c1 + digitVal c2, rest)
      else if c1 == '0' && ('1' ≤ c2 && c2 ≤ '9') then some (digitVal c2, rest)
      else if '1' ≤ c1 && c1 ≤ '9' then some (digitVal c1, c2 :: rest)
      else none
    | [c1] => if '1' ≤ c1 && c1 ≤ '9' then some (digitVal c1, []) else none
    | [] => none
  | 'y' =>
    match s with
    | c1 :: c2 :: rest =>
      if c1.isDigit && c2.isDigit then some (10 * digitVal c1 + digitVal c2, rest) else none
    | _ => none
  | 'Y' =>
    match s with
    | c1 :: c2 :: c3 :: c4 :: rest =>
      if c1.isDigit && c2.isDigit && c3.isDigit && c4.isDigit then
        some (1000 * digitVal c1 + 100 * digitVal c2 + 10 * digitVal c3 + digitVal c4, rest)
      else none
    | _ => none
  | 'H' =>
    match s with
    | c1 :: c2 :: rest =>
      if c1 == '2' && ('0' ≤ c2 && c2 ≤ '3') then some (20 + digitVal c2, rest)
      else if ('0' ≤ c1 && c1 ≤ '1') && c2.isDigit then some (10 * digitVal c1 + digitVal c2, rest)
      else if c1.isDigit then some (digitVal c1, c2 :: rest)
      else none
    | [c1] => if c1.isDigit then some (digitVal c1, []) else none
    | [] => none
  | 'M' =>
    match s with
    | c1 :: c2 :: rest =>
      if ('0' ≤ c1 && c1 ≤ '5') && c2.isDigit then some (10 * digitVal c1 + digitVal c2, rest)
      else if c1.isDigit then some (digitVal c1, c2 :: rest)
      else none
    | [c1] => if c1.isDigit then some (digitVal c1, []) else none
    | [] => none
  | 'S' =>
    match s with
    | c1 :: c2 :: rest =>
      if c1 == '6' && ('0' ≤ c2 && c2 ≤ '1') then some (60 + digitVal c2, rest)
      else if ('0' ≤ c1 && c1 ≤ '5') && c2.isDigit then some (10 * digitVal c1 + digitVal c2, rest)
      else if c1.isDigit then some (digitVal c1, c2 :: rest)
      else none
    | [c1] => if c1.isDigit then some (digitVal c1, []) else none
    | [] => none
  | 'f' =>
    match takeRun digitChar s with
    | ([], _) => none
    | (ds, rest) =>
      let ds6 := ds.take 6
      some (digitsToNat ds6 * 10 ^ (6 - ds6.length), ds.drop 6 ++ rest)
  | _ => none

def setTMField (dc : Char) (n : Nat) (t : TM) : TM :=
  match dc with
  | 'y' => { t with ty := some n }
  | 'Y' => { t with tY := some n }
  | 'm' => { t with tm := some n }
  | 'd' => { t with td := some n }
  | 'H' => { t with tH := some n }
  | 'M' => { t with tM := some n }
  | 'S' => { t with tS := some n }
  | 'f' => { t with tf := some n }
  | _ => t

/-- Run a `strptime` format over the input; a whitespace format character
    matches one or more whitespace characters, everything else is literal.
    The whole input must be consumed. -/
def stGo : List Char → List Char → TM → Option TM
  | [], [], t => some t
  | [], _ :: _, _ => none
  | '%' :: fcs, s, t =>
    match fcs with
    | [] => none
    | dc :: fcs' =>
      match matchDirective dc s with
      | none => none
      | some (n, rest) => stGo fcs' rest (setTMField dc n t)
  | ' ' :: fcs, s, t =>
    match takeRun wsChar s with
    | ([], _) => none
    | (_ :: _, rest) => stGo fcs rest t
  | fc :: fcs, c :: rest, t => if fc == c then stGo fcs rest t else none
  | _ :: _, [], _ => none

def isLeap (y : Nat) : Bool :=
  y % 4 == 0 && (y % 100 != 0 || y % 400 == 0)

def daysInMonth (y m : Nat) : Nat :=
  if m == 2 then (if isLeap y then 29 else 28)
  else if m == 4 || m == 6 || m == 9 || m == 11 then 30
  else 31

/-- `datetime.datetime.strptime(s, fmt)`, returning `none` where Python
    raises `ValueError` (failed match, unconverted data, or a field
    rejected by the `datetime` constructor). -/
def strptime (fmt s : String) : Option DateTime :=
  match stGo fmt.data s.data TM.empty with
  | none => none
  | some t =>
    let year := match t.tY, t.ty with
      | some yy, _ => yy
      | none, some y2 => if y2 ≤ 68 then 2000 + y2 else 1900 + y2
      | none, none => 1900
    let month := t.tm.getD 1
    let day := t.td.getD 1
    let hour := t.tH.getD 0
    let minute := t.tM.getD 0
    let second := t.tS.getD 0
    let micro := t.tf.getD 0
    if 1 ≤ year && year ≤ 9999 && 1 ≤ month && month ≤ 12 && 1 ≤ day &&
       day ≤ daysInMonth year month && hour ≤ 23 && minute ≤ 59 && second ≤ 59 &&
       micro ≤ 999999 then
      some ⟨year, month, day, hour, minute, second, micro⟩
    else none

/-- The dialect decision table of `NlxHeader.readTimeDate` (lines 330-356):
    for `"Cheetah"` the version ladder, otherwise keyed on the name alone
    (`av` is not inspected for non-Cheetah names). -/
def selectDialect (an : String) (av : PyVersion) : DialectKey :=
  if an = "Cheetah" then
    if vle av ⟨[2], none⟩ then .bv564
    else if vlt av ⟨[5], none⟩ then .inHeader
    else if vle av ⟨[5, 4, 0], none⟩ then .v540
    else if veqb av ⟨[5, 6, 0], none⟩ then .inHeader
    else if vle av ⟨[5, 6, 4], none⟩ then .bv564
    else .inProps
  else if an = "BML" then .inHeader
  else if an = "Neuraview" then .neuraview2
  else if an = "Pegasus" then .inProps
  else .inProps

/-- The open-timestamp value: parse with the dialect's primary format and,
    on failure, with its secondary format if one exists; if both fail the
    value is `None` rather than an error. -/
def openedTimeOf (hpd : HeaderPatternDict) (d t : String) : Option DateTime :=
  match strptime hpd.datetimeformat (d ++ " " ++ t) with
  | some dt => some dt
  | none =>
    match hpd.datetime2format with
    | some f2 => strptime f2 (d ++ " " ++ t)
    | none => none

/-- The body of `NlxHeader.readTimeDate` once the dialect is selected:
    a missing open-timestamp match is an error; an unparseable matched
    open timestamp degrades to `None`; a defined close-timestamp pattern
    with no match is an error, while an unparseable matched close
    timestamp degrades to `None`. -/
def readTimeDateDialect (hpd : HeaderPatternDict) (txt : String) (p : Props) :
    Except String Props :=
  match dtSearch hpd.datetime1_regex txt with
  | none => .error "No matching header open date/time. Please contact developers."
  | some (d, t) =>
    match hpd.datetime2_regex with
    | none => .ok (setProp p "recording_opened" (.time (openedTimeOf hpd d t)))
    | some pat2 =>
      match dtSearch pat2 txt with
      | none => .error "No matching header close date/time. Please contact developers."
      | some (d2, t2) =>
        .ok (setProp (setProp p "recording_opened" (.time (openedTimeOf hpd d t)))
              "recording_closed" (.time (strptime hpd.datetimeformat (d2 ++ " " ++ t2))))

/-- `NlxHeader.readTimeDate`: select the dialect from `ApplicationName`
    (and, for Cheetah, `ApplicationVersion`), then extract the timestamps. -/
def readTimeDate (txt : String) (p : Props) : Except String Props :=
  match lookupProp p "ApplicationName" with
  | some (.str an) =>
    if an = "Cheetah" then
      match lookupProp p "ApplicationVersion" with
      | some (.version av) =>
        readTimeDateDialect (header_pattern_dicts (selectDialect an av)) txt p
      | _ => .error "KeyError ApplicationVersion"
    else readTimeDateDialect (header_pattern_dicts (selectDialect an ⟨[0], none⟩)) txt p
  | _ => .error "KeyError ApplicationName"

/-- Modelled from the spec: the `AcqType` enumeration lives in
    `neo/rawio/neuralynxrawio/ncssections.py`, which is not among the
    provided sources; its members are taken from the spec's §3 data model
    (legacy-pre-v4, BML, DigitalLynx, DigitalLynxSX, Cheetah64,
    RawDataFile, Cheetah-5.6.0-era, plus an Unknown fallback). -/
inductive AcqType where
  | PRE4
  | BML
  | DIGITALLYNX
  | DIGITALLYNXSX
  | CHEETAH64
  | RAWDATAFILE
  | CHEETAH560
  | UNKNOWN
deriving DecidableEq, Repr

/-- Modelled from the spec: `AcqType[name]`, the Python `Enum` lookup by
    member name; `none` where Python raises `KeyError`. -/
def AcqType.fromName : String → Option AcqType
  | "PRE4" => some .PRE4
  | "BML" => some .BML
  | "DIGITALLYNX" => some .DIGITALLYNX
  | "DIGITALLYNXSX" => some .DIGITALLYNXSX
  | "CHEETAH64" => some .CHEETAH64
  | "RAWDATAFILE" => some .RAWDATAFILE
  | "CHEETAH560" => some .CHEETAH560
  | "UNKNOWN" => some .UNKNOWN
  | _ => none

/-- `NlxHeader.type_of_recording`: the priority cascade over
    `NLX_Base_Class_Type`, `HardwareSubSystemType` and `FileType`. -/
def type_of_recording (p : Props) : Except String AcqType :=
  match lookupProp p "NLX_Base_Class_Type" with
  | some v =>
    if v = .str "CscAcqEnt" then .ok .PRE4
    else if v = .str "BmlAcq" then .ok .BML
    else .ok .UNKNOWN
  | none =>
    match lookupProp p "HardwareSubSystemType" with
    | some v =>
      if v = .str "DigitalLynx" then .ok .DIGITALLYNX
      else if v = .str "DigitalLynxSX" then .ok .DIGITALLYNXSX
      else if v = .str "Cheetah64" then .ok .CHEETAH64
      else if v = .str "RawDataFile" then .ok .RAWDATAFILE
      else .ok .UNKNOWN
    | none =>
      match lookupProp p "FileType" with
      | some _ =>
        if (match lookupProp p "FileVersion" with
            | some fv => decide (fv = .str "3.2" ∨ fv = .str "3.3" ∨ fv = .str "3.4")
            | none => false : Bool) then
          match lookupProp p "AcquisitionSystem" with
          | some (.str s) =>
            match (splitWS s).get? 1 with
            | some tok =>
              match AcqType.fromName (pyUpper tok) with
              | some a => .ok a
              | none => .error "KeyError AcqType"
            | none => .error "IndexError"
          | some _ => .error "AttributeError"
          | none => .error "KeyError AcquisitionSystem"
        else .ok .CHEETAH560
      | none => .ok .UNKNOWN

/-- The leading-marker test of `NlxHeader.__init__` line 94:
    the decoded text must start with eight `#` characters. -/
def hasHeaderMark (txt : String) : Bool :=
  "########".data.isPrefixOf txt.data

/-- `NlxHeader.__init__` from the decoded header text onward.  Lines 93-95
    of the source compute the condition `not props_only and not
    txt_header.startswith("########")` (see `hasHeaderMark`) and construct
    `ValueError(...)` without `raise`, so the strict-validation check has no
    effect on the result; accordingly it contributes nothing here. -/
def parse (txt : String) (props_only : Bool) : Except String Props :=
  match read_properties txt with
  | .error e => .error e
  | .ok p =>
    match convert_channel_ids_names p with
    | .error e => .error e
    | .ok (p1, numChidEntries) =>
      match setApplicationAndVersion p1 with
      | .error e => .error e
      | .ok p2 =>
        match setBitToMicroVolt p2 with
        | .error e => .error e
        | .ok p3 =>
          match setInputRanges numChidEntries p3 with
          | .error e => .error e
          | .ok p4 => if props_only then .ok p4 else readTimeDate txt p4

/-- Whether a parse succeeded. -/
def okB : Except String Props → Bool
  | .ok _ => true
  | .error _ => false

/-- Whether a parse failed with an error (the spec's single `FormatError`
    kind covers every raised exception). -/
def errB : Except String Props → Bool
  | .ok _ => false
  | .error _ => true

end NlxHeader

open NlxHeader

theorem lookupProp_setProp_self (p : Props) (k : String) (v : PropVal) :
    lookupProp (setProp p k v) k = some v := by
  induction p with
  | nil => simp [setProp, lookupProp]
  | cons kv rest ih =>
    obtain ⟨k', v'⟩ := kv
    by_cases h : k' = k <;> simp [setProp, lookupProp, h, ih]

theorem lookupProp_setProp_ne (p : Props) (k k' : String) (v : PropVal) (h : k' ≠ k) :
    lookupProp (setProp p k v) k' = lookupProp p k' := by
  have h2 : k ≠ k' := fun hh => h hh.symm
  induction p with
  | nil => simp [setProp, lookupProp, h2]
  | cons kv rest ih =>
    obtain ⟨k1, v1⟩ := kv
    by_cases h1 : k1 = k
    · subst h1
      simp [setProp, lookupProp, h2]
    · simp only [setProp, if_neg h1, lookupProp]
      split
      · rfl
      · exact ih

theorem lexCmp_eq {a b : List Nat} (h : lexCmp a b = .eq) : a = b := by
  induction a generalizing b with
  | nil => cases b with
    | nil => rfl
    | cons y ys => simp [lexCmp] at h
  | cons x xs ih =>
    cases b with
    | nil => simp [lexCmp] at h
    | cons y ys =>
      simp only [lexCmp] at h
      cases hc : compare x y <;> rw [hc] at h
      · exact absurd h (by simp)
      · rw [Nat.compare_eq_eq.mp hc, ih h]
      · exact absurd h (by simp)

theorem optMapM_replicate {f : α → Option β} {a : α} {b : β} (n : Nat)
    (h : f a = some b) :
    optMapM f (List.replicate n a) = some (List.replicate n b) := by
  induction n with
  | zero => simp [optMapM]
  | succ m ih => simp [List.replicate, optMapM, h, ih]

theorem optMapM_length {f : α → Option β} {l : List α} {l' : List β}
    (h : optMapM f l = some l') : l'.length = l.length := by
  induction l generalizing l' with
  | nil => simp [optMapM] at h; simp [← h]
  | cons a as ih =>
    simp only [optMapM] at h
    cases hf : f a <;> rw [hf] at h
    · exact absurd h (by simp)
    · cases hr : optMapM f as <;> rw [hr] at h
      · exact absurd h (by simp)
      · cases h
        simp [ih hr]

theorem appNameVersionPair_ok {p q : Props} {s : String}
    (h : appNameVersionPair p = .ok (q, s)) :
    ∃ n, q = setProp p "ApplicationName" (.str n) := by
  unfold appNameVersionPair at h
  repeat' split at h
  all_goals simp at h
  all_goals exact ⟨_, h.1.symm⟩

theorem setApplicationAndVersion_ok {p q : Props}
    (h : setApplicationAndVersion p = .ok q) :
    ∃ n v, q = setProp (setProp p "ApplicationName" (.str n)) "ApplicationVersion" (.version v) := by
  unfold setApplicationAndVersion at h
  split at h
  · exact absurd h (by simp)
  · rename_i p1s heq
    split at h
    · cases h
      obtain ⟨n, hn⟩ := appNameVersionPair_ok heq
      exact ⟨n, _, by rw [hn]⟩
    · exact absurd h (by simp)

theorem convertNames_ok {p1 q : Props} {m n : Nat}
    (h : convertNames p1 m = .ok (q, n)) :
    ∃ ns, q = setProp p1 "channel_names" (.strList ns) := by
  unfold convertNames at h
  repeat' split at h
  all_goals simp at h
  all_goals exact ⟨_, h.1.symm⟩

theorem convert_channel_ids_names_ok {p q : Props} {n : Nat}
    (h : convert_channel_ids_names p = .ok (q, n)) :
    ∃ ids ns, q = setProp (setProp p "channel_ids" (.idList ids)) "channel_names" (.strList ns) := by
  unfold convert_channel_ids_names at h
  repeat' split at h
  all_goals first
    | simp at h
    | (obtain ⟨ns, hns⟩ := convertNames_ok h; exact ⟨_, _, hns⟩)

theorem setBitToMicroVolt_ok {p q : Props}
    (h : setBitToMicroVolt p = .ok q) :
    q = p ∨ ∃ l, q = setProp p "bit_to_microVolt" (.ratList l) := by
  unfold setBitToMicroVolt at h
  repeat' split at h
  all_goals simp at h
  all_goals first
    | exact Or.inl h.symm
    | exact Or.inr ⟨_, h.symm⟩

theorem setInputRanges_ok {m : Nat} {p q : Props}
    (h : setInputRanges m p = .ok q) :
    q = p ∨ ∃ l, q = setProp p "InputRange" (.intList l) := by
  unfold setInputRanges at h
  repeat' split at h
  all_goals simp at h
  all_goals first
    | exact Or.inl h.symm
    | exact Or.inr ⟨_, h.symm⟩

theorem readTimeDateDialect_ok {hpd : HeaderPatternDict} {txt : String} {p q : Props}
    (h : readTimeDateDialect hpd txt p = .ok q) :
    ∃ o, q = setProp p "recording_opened" (.time o) ∨
      ∃ c, q = setProp (setProp p "recording_opened" (.time o)) "recording_closed" (.time c) := by
  unfold readTimeDateDialect at h
  repeat' split at h
  all_goals simp at h
  all_goals first
    | exact ⟨_, Or.inl h.symm⟩
    | exact ⟨_, Or.inr ⟨_, h.symm⟩⟩

theorem readTimeDate_ok {txt : String} {p q : Props}
    (h : readTimeDate txt p = .ok q) :
    ∃ o, q = setProp p "recording_opened" (.time o) ∨
      ∃ c, q = setProp (setProp p "recording_opened" (.time o)) "recording_closed" (.time c) := by
  unfold readTimeDate at h
  repeat split at h
  all_goals first
    | exact absurd h (by simp)
    | exact readTimeDateDialect_ok h

theorem selectDialect_indep {an : String} (av av' : PyVersion) (h : an ≠ "Cheetah") :
    selectDialect an av = selectDialect an av' := by
  unfold selectDialect
  simp [h]

/-- C4: for every parsed header with `ApplicationName` `"Cheetah"` and
    `ApplicationVersion` equal to `5.6.0`, the dialect resolver selects the
    in-header-colon (`inHeader`) dialect and never the `v5.4.0` dialect. -/
theorem selectDialect_cheetah_5_6_0 (av : PyVersion)
    (h : vcmp av ⟨[5, 6, 0], none⟩ = .eq) :
    selectDialect "Cheetah" av = .inHeader ∧ selectDialect "Cheetah" av ≠ .v540 := by
  have hz : stripZeros ([5, 6, 0] : List Nat) = [5, 6] := by decide
  unfold vcmp at h
  rw [show (⟨[5, 6, 0], none⟩ : PyVersion).release = [5, 6, 0] from rfl, hz] at h
  cases hl : lexCmp (stripZeros av.release) [5, 6] <;> rw [hl] at h
  · exact absurd h (by simp)
  · have h1 : stripZeros av.release = [5, 6] := lexCmp_eq hl
    have h2 : av.dev = none := by
      cases hd : av.dev <;> simp [hd, devCmp] at h ⊢
    constructor
    · simp only [selectDialect, vle, vlt, veqb, vcmp, h1, h2]
      rfl
    · simp only [selectDialect, vle, vlt, veqb, vcmp, h1, h2]
      decide
  · exact absurd h (by simp)

/-- Witness for C4: the concrete version `5.6.0` satisfies the hypothesis
    and selects `inHeader`, not `v5.4.0`. -/
theorem selectDialect_cheetah_5_6_0_witness :
    selectDialect "Cheetah" ⟨[5, 6, 0], none⟩ = .inHeader ∧
    selectDialect "Cheetah" ⟨[5, 6, 0], none⟩ ≠ .v540 :=
  selectDialect_cheetah_5_6_0 ⟨[5, 6, 0], none⟩ (by decide)

/-- C5: a header carrying both a base-class-type marker and a
    hardware-subsystem-type marker is classified through the
    base-class-type branch alone: the result is a function of the
    `NLX_Base_Class_Type` value only (`"CscAcqEnt"` to `PRE4`, `"BmlAcq"`
    to `BML`, anything else to `UNKNOWN`), ignoring the hardware marker. -/
theorem type_of_recording_base_class_priority (p : Props) (v : PropVal)
    (h1 : lookupProp p "NLX_Base_Class_Type" = some v)
    (h2 : (lookupProp p "HardwareSubSystemType").isSome = true) :
    type_of_recording p =
      .ok (if v = .str "CscAcqEnt" then AcqType.PRE4
           else if v = .str "BmlAcq" then AcqType.BML
           else AcqType.UNKNOWN) := by
  have h0 : type_of_recording p =
      if v = PropVal.str "CscAcqEnt" then .ok AcqType.PRE4
      else if v = PropVal.str "BmlAcq" then .ok AcqType.BML
      else .ok AcqType.UNKNOWN := by
    unfold type_of_recording
    rw [h1]
  rw [h0]
  split_ifs <;> rfl

/-- Witness for C5: a header with `NLX_Base_Class_Type CscAcqEnt` and
    `HardwareSubSystemType DigitalLynxSX` classifies as `PRE4`. -/
theorem type_of_recording_base_class_priority_witness :
    type_of_recording
      [("NLX_Base_Class_Type", .str "CscAcqEnt"),
       ("HardwareSubSystemType", .str "DigitalLynxSX")] = .ok AcqType.PRE4 := by
  have h := type_of_recording_base_class_priority
    [("NLX_Base_Class_Type", .str "CscAcqEnt"),
     ("HardwareSubSystemType", .str "DigitalLynxSX")]
    (.str "CscAcqEnt") rfl rfl
  simpa using h

/-- C6: with no base-class-type or hardware marker, `FileType` present and
    `FileVersion` in {"3.2", "3.3", "3.4"}, the classifier returns the tag
    named by the upper-cased second whitespace token of
    `AcquisitionSystem`, and fails when no such tag exists. -/
theorem type_of_recording_acqsystem_tag (p : Props) (fv : PropVal) (s tok : String)
    (h1 : lookupProp p "NLX_Base_Class_Type" = none)
    (h2 : lookupProp p "HardwareSubSystemType" = none)
    (h3 : (lookupProp p "FileType").isSome = true)
    (h4 : lookupProp p "FileVersion" = some fv)
    (h5 : fv = .str "3.2" ∨ fv = .str "3.3" ∨ fv = .str "3.4")
    (h6 : lookupProp p "AcquisitionSystem" = some (.str s))
    (h7 : (splitWS s).get? 1 = some tok) :
    type_of_recording p =
      match AcqType.fromName (pyUpper tok) with
      | some a => .ok a
      | none => .error "KeyError AcqType" := by
  obtain ⟨ft, hft⟩ := Option.isSome_iff_exists.mp h3
  unfold type_of_recording
  simp only [h1, h2, hft, h4, h6, h7, decide_eq_true h5, if_true]

/-- Witness for C6: `AcquisitionSystem "AcqSystem1 DigitalLynxSX"` yields
    the tag `DIGITALLYNXSX`; the unregistered derived tag `"BARBAZ"` from
    `AcquisitionSystem "Foo BARBAZ"` is an error. -/
theorem type_of_recording_acqsystem_tag_witness :
    type_of_recording
      [("FileType", .str "CSC"), ("FileVersion", .str "3.3"),
       ("AcquisitionSystem", .str "AcqSystem1 DigitalLynxSX")] = .ok AcqType.DIGITALLYNXSX ∧
    type_of_recording
      [("FileType", .str "CSC"), ("FileVersion", .str "3.3"),
       ("AcquisitionSystem", .str "Foo BARBAZ")] = .error "KeyError AcqType" := by
  constructor
  · have h := type_of_recording_acqsystem_tag
      [("FileType", .str "CSC"), ("FileVersion", .str "3.3"),
       ("AcquisitionSystem", .str "AcqSystem1 DigitalLynxSX")]
      (.str "3.3") "AcqSystem1 DigitalLynxSX" "DigitalLynxSX"
      rfl rfl rfl rfl (Or.inr (Or.inl rfl)) rfl rfl
    simpa using h
  · have h := type_of_recording_acqsystem_tag
      [("FileType", .str "CSC"), ("FileVersion", .str "3.3"),
       ("AcquisitionSystem", .str "Foo BARBAZ")]
      (.str "3.3") "Foo BARBAZ" "BARBAZ"
      rfl rfl rfl rfl (Or.inr (Or.inl rfl)) rfl rfl
    simpa using h

/-- C7: with a raw bit-to-microvolt text and channel ids present, a single
    token is replicated to the channel count and every value is scaled by
    `1e6`; a token list whose length differs from the channel count (and is
    not 1) is a parse failure. -/
theorem setBitToMicroVolt_replication_scaling (p : Props) (s : String) (cids : List ChanId)
    (hs : lookupProp p "bit_to_microVolt" = some (.str s))
    (hc : lookupProp p "channel_ids" = some (.idList cids)) :
    (∀ t q, splitWS s = [t] → pyFloat t = some q →
       setBitToMicroVolt p =
         .ok (setProp p "bit_to_microVolt"
               (.ratList (List.replicate cids.length (q * 1000000))))) ∧
    (∀ qs, optMapM pyFloat (splitWS s) = some qs → (splitWS s).length ≠ 1 →
       qs.length ≠ cids.length → errB (setBitToMicroVolt p) = true) := by
  constructor
  · intro t q htok hq
    unfold setBitToMicroVolt
    simp [hs, htok, hc, optMapM_replicate cids.length hq, List.map_replicate]
  · intro qs hqs hne hlen
    unfold setBitToMicroVolt
    cases hsp : splitWS s with
    | nil =>
      rw [hsp] at hqs
      obtain rfl : qs = [] := by simpa [optMapM] using hqs.symm
      have h0 : ¬((0 : Nat) = cids.length) := by simpa using hlen
      simp [hs, hsp, optMapM, hc, h0, errB]
    | cons t1 rest =>
      cases rest with
      | nil => rw [hsp] at hne; simp at hne
      | cons t2 rest2 =>
        rw [hsp] at hqs
        simp [hs, hsp, hqs, hc, hlen, errB]

/-- Witness for C7: token `"2.5"` with 4 channel ids yields four entries
    of `2500000`; tokens `"1.0 2.0"` against 4 channel ids fail. -/
theorem setBitToMicroVolt_replication_scaling_witness :
    setBitToMicroVolt
      [("bit_to_microVolt", .str "2.5"),
       ("channel_ids", .idList [.int 1, .int 2, .int 3, .int 4])] =
      .ok [("bit_to_microVolt", .ratList [2500000, 2500000, 2500000, 2500000]),
           ("channel_ids", .idList [.int 1, .int 2, .int 3, .int 4])] ∧
    errB (setBitToMicroVolt
      [("bit_to_microVolt", .str "1.0 2.0"),
       ("channel_ids", .idList [.int 1, .int 2, .int 3, .int 4])]) = true := by
  constructor
  · have hq : pyFloat "2.5" = some (5 / 2) := by
      simp [pyFloat, pyFloatBody, stripWS, takeRun, wsChar, digitChar, digitsToNat]
      norm_num
    have h := (setBitToMicroVolt_replication_scaling
      [("bit_to_microVolt", .str "2.5"),
       ("channel_ids", .idList [.int 1, .int 2, .int 3, .int 4])]
      "2.5" [.int 1, .int 2, .int 3, .int 4] rfl rfl).1 "2.5" (5 / 2) rfl hq
    rw [h]
    norm_num [List.replicate, setProp]
  · have hm : optMapM pyFloat (splitWS "1.0 2.0") = some [1, 2] := by
      have h1 : pyFloat "1.0" = some 1 := by
        simp [pyFloat, pyFloatBody, stripWS, takeRun, wsChar, digitChar, digitsToNat]
      have h2 : pyFloat "2.0" = some 2 := by
        simp [pyFloat, pyFloatBody, stripWS, takeRun, wsChar, digitChar, digitsToNat]
        norm_num
      have hsp : splitWS "1.0 2.0" = ["1.0", "2.0"] := rfl
      rw [hsp]
      simp [optMapM, h1, h2]
    exact (setBitToMicroVolt_replication_scaling
      [("bit_to_microVolt", .str "1.0 2.0"),
       ("channel_ids", .idList [.int 1, .int 2, .int 3, .int 4])]
      "1.0 2.0" [.int 1, .int 2, .int 3, .int 4] rfl rfl).2 [1, 2]
      hm (by decide) (by decide)

/-- Dialect selection step of `readTimeDate`, factored out: with
    `ApplicationName` and `ApplicationVersion` present, `readTimeDate` is
    the dialect body at the selected dialect (for non-Cheetah names the
    version is not inspected). -/
theorem readTimeDate_eq_dialect (txt : String) (p : Props) (an : String) (av : PyVersion)
    (han : lookupProp p "ApplicationName" = some (.str an))
    (hav : lookupProp p "ApplicationVersion" = some (.version av)) :
    readTimeDate txt p =
      readTimeDateDialect (header_pattern_dicts (selectDialect an av)) txt p := by
  unfold readTimeDate
  by_cases hC : an = "Cheetah"
  · subst hC
    simp [han, hav]
  · simp only [han, if_neg hC]
    rw [selectDialect_indep ⟨[0], none⟩ av hC]

/-- C2: if the selected dialect defines a close-timestamp pattern and the
    header text contains no match for it, `readTimeDate` fails; if the
    dialect defines no close-timestamp pattern (and the open timestamp is
    found), `readTimeDate` succeeds and records no close timestamp. -/
theorem readTimeDate_close_timestamp_policy (txt : String) (p : Props) (an : String)
    (av : PyVersion)
    (han : lookupProp p "ApplicationName" = some (.str an))
    (hav : lookupProp p "ApplicationVersion" = some (.version av)) :
    (∀ pat2, (header_pattern_dicts (selectDialect an av)).datetime2_regex = some pat2 →
       dtSearch pat2 txt = none → errB (readTimeDate txt p) = true) ∧
    ((header_pattern_dicts (selectDialect an av)).datetime2_regex = none →
       ∀ d t, dtSearch (header_pattern_dicts (selectDialect an av)).datetime1_regex txt =
           some (d, t) →
         ∃ q, readTimeDate txt p = .ok q ∧
           lookupProp q "recording_closed" = lookupProp p "recording_closed") := by
  rw [readTimeDate_eq_dialect txt p an av han hav]
  constructor
  · intro pat2 hp2 hnone
    unfold readTimeDateDialect
    cases hd1 : dtSearch (header_pattern_dicts (selectDialect an av)).datetime1_regex txt with
    | none => simp [errB]
    | some dt =>
      obtain ⟨d, t⟩ := dt
      simp [hp2, hnone, errB]
  · intro hp2 d t hd1
    unfold readTimeDateDialect
    simp only [hd1, hp2]
    exact ⟨_, rfl, lookupProp_setProp_ne p "recording_opened" "recording_closed" _ (by decide)⟩

/-- Witness for C2: dialect `v5.4.0` (Cheetah 5.4.0) on a header with an
    open line but no close line fails; dialect `inHeader` (BML), which has
    no close pattern, succeeds without recording a close time. -/
theorem readTimeDate_close_timestamp_policy_witness :
    errB (readTimeDate "## Time Opened (m/d/y): 1/01/2001  At Time: 0:00:00.000\n"
      [("ApplicationName", .str "Cheetah"),
       ("ApplicationVersion", .version ⟨[5, 4, 0], none⟩)]) = true ∧
    (∃ q, readTimeDate "## Time Opened: (m/d/y): 12/11/15  At Time: 11:37:39.000\n"
      [("ApplicationName", .str "BML"),
       ("ApplicationVersion", .version ⟨[2], none⟩)] = .ok q ∧
      lookupProp q "recording_closed" =
        lookupProp [("ApplicationName", PropVal.str "BML"),
          ("ApplicationVersion", PropVal.version ⟨[2], none⟩)] "recording_closed") := by
  constructor
  · exact (readTimeDate_close_timestamp_policy
      "## Time Opened (m/d/y): 1/01/2001  At Time: 0:00:00.000\n"
      [("ApplicationName", .str "Cheetah"),
       ("ApplicationVersion", .version ⟨[5, 4, 0], none⟩)]
      "Cheetah" ⟨[5, 4, 0], none⟩ rfl rfl).1
      ⟨"## Time Closed (m/d/y): ", "  At Time: "⟩ rfl rfl
  · exact (readTimeDate_close_timestamp_policy
      "## Time Opened: (m/d/y): 12/11/15  At Time: 11:37:39.000\n"
      [("ApplicationName", .str "BML"),
       ("ApplicationVersion", .version ⟨[2], none⟩)]
      "BML" ⟨[2], none⟩ rfl rfl).2
      rfl "12/11/15" "11:37:39.000" rfl

/-- C3: a header text whose open-timestamp pattern matches but whose
    captured date/time body is unparseable under both the dialect's primary
    and (if defined) secondary formats records the open timestamp as absent
    (`None`) without raising (provided the close phase finds its match,
    which is the separate C2 policy). -/
theorem readTimeDate_open_leniency (txt : String) (p : Props) (an : String) (av : PyVersion)
    (d t : String)
    (han : lookupProp p "ApplicationName" = some (.str an))
    (hav : lookupProp p "ApplicationVersion" = some (.version av))
    (hopen : dtSearch (header_pattern_dicts (selectDialect an av)).datetime1_regex txt =
       some (d, t))
    (h1 : strptime (header_pattern_dicts (selectDialect an av)).datetimeformat
       (d ++ " " ++ t) = none)
    (h2 : ∀ f2, (header_pattern_dicts (selectDialect an av)).datetime2format = some f2 →
       strptime f2 (d ++ " " ++ t) = none)
    (hclose : ∀ pat2, (header_pattern_dicts (selectDialect an av)).datetime2_regex = some pat2 →
       (dtSearch pat2 txt).isSome = true) :
    ∃ q, readTimeDate txt p = .ok q ∧
      lookupProp q "recording_opened" = some (.time none) := by
  have hopened : openedTimeOf (header_pattern_dicts (selectDialect an av)) d t = none := by
    unfold openedTimeOf
    rw [h1]
    cases hf : (header_pattern_dicts (selectDialect an av)).datetime2format with
    | none => rfl
    | some f2 => exact h2 f2 hf
  rw [readTimeDate_eq_dialect txt p an av han hav]
  unfold readTimeDateDialect
  simp only [hopen]
  cases hp2 : (header_pattern_dicts (selectDialect an av)).datetime2_regex with
  | none =>
    refine ⟨_, rfl, ?_⟩
    rw [hopened, lookupProp_setProp_self]
  | some pat2 =>
    have hsome := hclose pat2 hp2
    obtain ⟨dt2, hd2⟩ := Option.isSome_iff_exists.mp hsome
    obtain ⟨d2, t2⟩ := dt2
    simp only [hd2]
    refine ⟨_, rfl, ?_⟩
    rw [hopened,
      lookupProp_setProp_ne _ "recording_closed" "recording_opened" _ (by decide),
      lookupProp_setProp_self]

/-- Witness for C3: Cheetah 5.7.4 selects the `inProps` dialect; the open
    line `-TimeCreated 2019/13/45 99:99:99` matches the pattern but parses
    under neither format, so the open timestamp is `None` and the parse
    succeeds. -/
theorem readTimeDate_open_leniency_witness :
    ∃ q, readTimeDate "-TimeCreated 2019/13/45 99:99:99\n-TimeClosed 2019/06/28 17:45:48\n"
      [("ApplicationName", .str "Cheetah"),
       ("ApplicationVersion", .version ⟨[5, 7, 4], none⟩)] = .ok q ∧
      lookupProp q "recording_opened" = some (.time none) :=
  readTimeDate_open_leniency
    "-TimeCreated 2019/13/45 99:99:99\n-TimeClosed 2019/06/28 17:45:48\n"
    [("ApplicationName", .str "Cheetah"),
     ("ApplicationVersion", .version ⟨[5, 7, 4], none⟩)]
    "Cheetah" ⟨[5, 7, 4], none⟩ "2019/13/45" "99:99:99"
    rfl rfl rfl rfl
    (by
      intro f2 hf2
      rw [show (header_pattern_dicts (selectDialect "Cheetah" ⟨[5, 7, 4], none⟩)).datetime2format =
            some "%Y/%m/%d %H:%M:%S.%f" from rfl] at hf2
      cases hf2
      rfl)
    (by
      intro pat2 hp2
      rw [show (header_pattern_dicts (selectDialect "Cheetah" ⟨[5, 7, 4], none⟩)).datetime2_regex =
            some ⟨"-TimeClosed ", " "⟩ from rfl] at hp2
      cases hp2
      rfl)

/-- Preservation of a lookup under two dictionary updates at other keys. -/
theorem lookupProp_setProp2_ne (p : Props) (k1 k2 k' : String) (v1 v2 : PropVal)
    (h1 : k' ≠ k1) (h2 : k' ≠ k2) :
    lookupProp (setProp (setProp p k1 v1) k2 v2) k' = lookupProp p k' := by
  rw [lookupProp_setProp_ne _ _ _ _ h2, lookupProp_setProp_ne _ _ _ _ h1]

/-- C8: a raw header in which both the legacy `CheetahRev` field and a
    modern `ApplicationName` field appear fails to parse: the
    application-name normalization asserts their non-co-occurrence. -/
theorem parse_cheetahrev_appname_conflict (txt : String) (p : Props) (b : Bool)
    (hread : read_properties txt = .ok p)
    (h1 : (lookupProp p "CheetahRev").isSome = true)
    (h2 : (lookupProp p "ApplicationName").isSome = true) :
    errB (parse txt b) = true := by
  unfold parse
  simp only [hread]
  cases hconv : convert_channel_ids_names p with
  | error e => simp [errB]
  | ok pn =>
    obtain ⟨p1, n⟩ := pn
    obtain ⟨ids, ns, hshape⟩ := convert_channel_ids_names_ok hconv
    have hc1 : (lookupProp p1 "CheetahRev").isSome = true := by
      rw [hshape, lookupProp_setProp2_ne _ _ _ _ _ _ (by decide) (by decide)]
      exact h1
    have hc2 : (lookupProp p1 "ApplicationName").isSome = true := by
      rw [hshape, lookupProp_setProp2_ne _ _ _ _ _ _ (by decide) (by decide)]
      exact h2
    obtain ⟨cv, hcv⟩ := Option.isSome_iff_exists.mp hc1
    obtain ⟨av2, hav2⟩ := Option.isSome_iff_exists.mp hc2
    have herr : setApplicationAndVersion p1 =
        .error "AssertionError: ApplicationName not in self" := by
      unfold setApplicationAndVersion appNameVersionPair
      simp only [hcv, hav2]
    simp [herr, errB]

/-- Witness for C8: a header text carrying both `-CheetahRev` and
    `-ApplicationName` fails to parse. -/
theorem parse_cheetahrev_appname_conflict_witness :
    errB (parse "-CheetahRev 5.4.0\n-ApplicationName Cheetah \"5.7.4\"\n" true) = true :=
  parse_cheetahrev_appname_conflict
    "-CheetahRev 5.4.0\n-ApplicationName Cheetah \"5.7.4\"\n"
    [("CheetahRev", .str "5.4.0"), ("ApplicationName", .str "Cheetah \"5.7.4\"")]
    true rfl rfl rfl

/-- C9: whenever `parse` succeeds, the resulting property table contains
    both an `ApplicationName` and an `ApplicationVersion` entry, whatever
    raw fields the header text contained. -/
theorem parse_app_name_version_present (txt : String) (b : Bool) (q : Props)
    (h : parse txt b = .ok q) :
    (lookupProp q "ApplicationName").isSome = true ∧
    (lookupProp q "ApplicationVersion").isSome = true := by
  unfold parse at h
  cases hr : read_properties txt with
  | error e => simp [hr] at h
  | ok p =>
  simp only [hr] at h
  cases hc : convert_channel_ids_names p with
  | error e => simp [hc] at h
  | ok pn =>
  obtain ⟨p1, n⟩ := pn
  simp only [hc] at h
  cases ha : setApplicationAndVersion p1 with
  | error e => simp [ha] at h
  | ok p2 =>
  simp only [ha] at h
  obtain ⟨nm, vv, hshape⟩ := setApplicationAndVersion_ok ha
  have hp2 : (lookupProp p2 "ApplicationName").isSome = true ∧
      (lookupProp p2 "ApplicationVersion").isSome = true := by
    subst hshape
    constructor
    · rw [lookupProp_setProp_ne _ _ _ _ (by decide), lookupProp_setProp_self]; rfl
    · rw [lookupProp_setProp_self]; rfl
  cases hb2 : setBitToMicroVolt p2 with
  | error e => simp [hb2] at h
  | ok p3 =>
  simp only [hb2] at h
  have hp3 : (lookupProp p3 "ApplicationName").isSome = true ∧
      (lookupProp p3 "ApplicationVersion").isSome = true := by
    rcases setBitToMicroVolt_ok hb2 with heq | ⟨l, heq⟩ <;> subst heq
    · exact hp2
    · exact ⟨by rw [lookupProp_setProp_ne _ _ _ _ (by decide)]; exact hp2.1,
        by rw [lookupProp_setProp_ne _ _ _ _ (by decide)]; exact hp2.2⟩
  cases hi : setInputRanges n p3 with
  | error e => simp [hi] at h
  | ok p4 =>
  simp only [hi] at h
  have hp4 : (lookupProp p4 "ApplicationName").isSome = true ∧
      (lookupProp p4 "ApplicationVersion").isSome = true := by
    rcases setInputRanges_ok hi with heq | ⟨l, heq⟩ <;> subst heq
    · exact hp3
    · exact ⟨by rw [lookupProp_setProp_ne _ _ _ _ (by decide)]; exact hp3.1,
        by rw [lookupProp_setProp_ne _ _ _ _ (by decide)]; exact hp3.2⟩
  cases b with
  | true =>
    simp at h
    subst h
    exact hp4
  | false =>
    simp at h
    obtain ⟨o, ho⟩ := readTimeDate_ok h
    rcases ho with heq | ⟨c, heq⟩ <;> subst heq
    · exact ⟨by rw [lookupProp_setProp_ne _ _ _ _ (by decide)]; exact hp4.1,
        by rw [lookupProp_setProp_ne _ _ _ _ (by decide)]; exact hp4.2⟩
    · exact ⟨by rw [lookupProp_setProp2_ne _ _ _ _ _ _ (by decide) (by decide)]; exact hp4.1,
        by rw [lookupProp_setProp2_ne _ _ _ _ _ _ (by decide) (by decide)]; exact hp4.2⟩

/-- Witness for C9: the empty header parses (props-only) and the result
    carries both derived entries. -/
theorem parse_app_name_version_present_witness :
    (lookupProp [("channel_ids", PropVal.idList [.str "unknown"]),
       ("channel_names", PropVal.strList ["unknown"]),
       ("ApplicationName", PropVal.str "Neuraview"),
       ("ApplicationVersion", PropVal.version ⟨[2], none⟩)] "ApplicationName").isSome = true ∧
    (lookupProp [("channel_ids", PropVal.idList [.str "unknown"]),
       ("channel_names", PropVal.strList ["unknown"]),
       ("ApplicationName", PropVal.str "Neuraview"),
       ("ApplicationVersion", PropVal.version ⟨[2], none⟩)] "ApplicationVersion").isSome = true :=
  parse_app_name_version_present "" true
    [("channel_ids", PropVal.idList [.str "unknown"]),
     ("channel_names", PropVal.strList ["unknown"]),
     ("ApplicationName", PropVal.str "Neuraview"),
     ("ApplicationVersion", PropVal.version ⟨[2], none⟩)] rfl

/-- C10: a header with a single-token `InputRange` but no channel-ids
    (`ADChannel`) field parses successfully in props-only mode, setting
    `InputRange` to the empty list — the token is replicated by the raw
    channel-id entry count, which is 0 — while `channel_ids` is the
    one-element placeholder `["unknown"]`, so the `InputRange` length (0)
    differs from the channel count (1). -/
theorem parse_inputrange_placeholder_mismatch (txt : String) (p : Props) (s tok : String)
    (v : Int)
    (hread : read_properties txt = .ok p)
    (hIR : lookupProp p "InputRange" = some (.str s))
    (hw : wordTokens s = [tok])
    (hv : pyInt tok = some v)
    (hcid : lookupProp p "channel_ids" = none)
    (hnames : lookupProp p "channel_names" = none)
    (hbtm : lookupProp p "bit_to_microVolt" = none)
    (hcr : lookupProp p "CheetahRev" = none)
    (happ : lookupProp p "ApplicationName" = none)
    (hnlx : lookupProp p "NLX_Base_Class_Type" = none) :
    ∃ q, parse txt true = .ok q ∧
      lookupProp q "InputRange" = some (.intList []) ∧
      lookupProp q "channel_ids" = some (.idList [.str "unknown"]) := by
  have hconv : convert_channel_ids_names p =
      .ok (setProp (setProp p "channel_ids" (.idList [.str "unknown"]))
            "channel_names" (.strList ["unknown"]), 0) := by
    unfold convert_channel_ids_names convertNames
    simp [hcid, hnames, lookupProp_setProp_self, lookupProp_setProp_ne]
  have happ2 : setApplicationAndVersion
      (setProp (setProp p "channel_ids" (.idList [.str "unknown"]))
        "channel_names" (.strList ["unknown"])) =
      .ok (setProp (setProp (setProp (setProp p
            "channel_ids" (.idList [.str "unknown"]))
            "channel_names" (.strList ["unknown"]))
            "ApplicationName" (.str "Neuraview"))
            "ApplicationVersion" (.version ⟨[2], none⟩)) := by
    unfold setApplicationAndVersion appNameVersionPair
    simp [hcr, happ, hnlx, lookupProp_setProp_ne]
    rfl
  have hbtm2 : setBitToMicroVolt
      (setProp (setProp (setProp (setProp p
        "channel_ids" (.idList [.str "unknown"]))
        "channel_names" (.strList ["unknown"]))
        "ApplicationName" (.str "Neuraview"))
        "ApplicationVersion" (.version ⟨[2], none⟩)) =
      .ok (setProp (setProp (setProp (setProp p
        "channel_ids" (.idList [.str "unknown"]))
        "channel_names" (.strList ["unknown"]))
        "ApplicationName" (.str "Neuraview"))
        "ApplicationVersion" (.version ⟨[2], none⟩)) := by
    unfold setBitToMicroVolt
    simp [hbtm, lookupProp_setProp_ne]
  have hir2 : setInputRanges 0
      (setProp (setProp (setProp (setProp p
        "channel_ids" (.idList [.str "unknown"]))
        "channel_names" (.strList ["unknown"]))
        "ApplicationName" (.str "Neuraview"))
        "ApplicationVersion" (.version ⟨[2], none⟩)) =
      .ok (setProp (setProp (setProp (setProp (setProp p
        "channel_ids" (.idList [.str "unknown"]))
        "channel_names" (.strList ["unknown"]))
        "ApplicationName" (.str "Neuraview"))
        "ApplicationVersion" (.version ⟨[2], none⟩))
        "InputRange" (.intList [])) := by
    unfold setInputRanges
    simp [hIR, hw, hv, lookupProp_setProp_ne]
  refine ⟨setProp (setProp (setProp (setProp (setProp p
      "channel_ids" (.idList [.str "unknown"]))
      "channel_names" (.strList ["unknown"]))
      "ApplicationName" (.str "Neuraview"))
      "ApplicationVersion" (.version ⟨[2], none⟩))
      "InputRange" (.intList []), ?_, ?_, ?_⟩
  · unfold parse
    simp only [hread, hconv, happ2, hbtm2, hir2, if_true]
  · rw [lookupProp_setProp_self]
  · rw [lookupProp_setProp_ne _ _ _ _ (by decide),
      lookupProp_setProp_ne _ _ _ _ (by decide),
      lookupProp_setProp_ne _ _ _ _ (by decide),
      lookupProp_setProp_ne _ _ _ _ (by decide),
      lookupProp_setProp_self]

/-- Witness for C10: the header text `-InputRange 1000` (no `-ADChannel`)
    parses with `InputRange = []` and placeholder channel ids. -/
theorem parse_inputrange_placeholder_mismatch_witness :
    ∃ q, parse "-InputRange 1000\n" true = .ok q ∧
      lookupProp q "InputRange" = some (.intList []) ∧
      lookupProp q "channel_ids" = some (.idList [.str "unknown"]) :=
  parse_inputrange_placeholder_mismatch "-InputRange 1000\n"
    [("InputRange", .str "1000")] "1000" "1000" 1000
    rfl rfl rfl rfl rfl rfl rfl rfl rfl rfl

/-- C1 (code bug): `NlxHeader.__init__` lines 93-95 construct the
    eight-`#` `ValueError` without raising it, so a file whose decoded
    16 KiB header text does not begin with eight `#` characters still
    parses successfully under strict validation (`props_only = false`),
    instead of failing as the spec requires. -/
theorem parse_header_mark_not_enforced :
    hasHeaderMark "junk\n-ApplicationName Cheetah \"6.0.0\"\n-TimeCreated 2019/06/28 17:36:50\n-TimeClosed 2019/06/28 17:45:48\n" = false ∧
    okB (parse "junk\n-ApplicationName Cheetah \"6.0.0\"\n-TimeCreated 2019/06/28 17:36:50\n-TimeClosed 2019/06/28 17:45:48\n" false) = true :=
  ⟨rfl, rfl⟩
